import Mathlib

/-!
Formal model of the Talos runtime sequencer module
(`internal/app/machined/pkg/runtime/sequencer.go`) and of the image
pull/import retry wrappers (`internal/pkg/containers/image`), together
with theorems about the string round-trip of `Sequence`, the error
behaviour of `ParseSequence`, the totality of the `Sequencer` interface,
and the retry classification of image pull/import errors.

Conventions of the embedding:
- Go `int` is modelled as `Int`; Go `time.Duration` as `Nat` nanoseconds.
- A Go function returning `(T, error)` is modelled as `T × Option E`
  (`none` = nil error); a nil-able `error` alone as `Option E`.
- A Go expression that can panic (the positional array index in
  `Sequence.String`) is modelled as an `Option` result, `none` marking
  the panic.
-/

namespace Talos

/- Go: `type Sequence int` (sequencer.go line 14).  Go's `Sequence` is a
plain machine integer, so the embedding uses `Int` directly for Sequence
values. -/

/-- Go: `SequenceApplyConfiguration Sequence = iota` (value 0). -/
def SequenceApplyConfiguration : Int := 0

/-- Go: `SequenceBoot` (value 1). -/
def SequenceBoot : Int := 1

/-- Go: `SequenceBootstrap` (value 2). -/
def SequenceBootstrap : Int := 2

/-- Go: `SequenceInitialize` (value 3). -/
def SequenceInitialize : Int := 3

/-- Go: `SequenceInstall` (value 4). -/
def SequenceInstall : Int := 4

/-- Go: `SequenceShutdown` (value 5). -/
def SequenceShutdown : Int := 5

/-- Go: `SequenceUpgrade` (value 6). -/
def SequenceUpgrade : Int := 6

/-- Go: `SequenceReset` (value 7). -/
def SequenceReset : Int := 7

/-- Go: `SequenceReboot` (value 8). -/
def SequenceReboot : Int := 8

/-- Go: `SequenceRecover` (value 9). -/
def SequenceRecover : Int := 9

/-- Go: `SequenceNoop` (value 10). -/
def SequenceNoop : Int := 10

/-- Go string constant `applyConfiguration` (sequencer.go line 42). -/
def applyConfiguration : String := "applyConfiguration"

/-- Go string constant `boot`. -/
def boot : String := "boot"

/-- Go string constant `bootstrap`. -/
def bootstrap : String := "bootstrap"

/-- Go string constant named `initialize` in the source (renamed here). -/
def initializeStr : String := "initialize"

/-- Go string constant `install`. -/
def install : String := "install"

/-- Go string constant `shutdown`. -/
def shutdown : String := "shutdown"

/-- Go string constant `upgrade`. -/
def upgrade : String := "upgrade"

/-- Go string constant `reset`. -/
def resetStr : String := "reset"

/-- Go string constant `reboot`. -/
def reboot : String := "reboot"

/-- Go string constant `recover`. -/
def recoverStr : String := "recover"

/-- Go string constant `noop`. -/
def noop : String := "noop"

/-- The anonymous array literal in `Sequence.String` (sequencer.go line 57),
in source order. -/
def sequenceStrings : List String :=
  [applyConfiguration, boot, bootstrap, initializeStr, install, shutdown,
   upgrade, resetStr, reboot, recoverStr, noop]

/-- Go: `func (s Sequence) String() string` — a direct positional index into
the string table.  Go panics when the index is negative or past the end of
the array; the embedding returns `none` exactly in those cases. -/
def Sequence.String (s : Int) : Option String :=
  if s < 0 then none else sequenceStrings.get? s.toNat

/-- The error value built by `ParseSequence`'s default branch:
`fmt.Errorf("unknown runtime sequence: %q", s)`. -/
inductive SeqError where
  | unknownRuntimeSequence : String → SeqError
deriving DecidableEq

/-- Go: `func ParseSequence(s string) (seq Sequence, err error)` — a switch
over the eleven fixed string constants; the default branch returns the
zero-initialized `seq` (0) together with the error.  Success is a pair
with a `none` error, mirroring Go's `(seq, nil)`. -/
def ParseSequence (s : String) : Int × Option SeqError :=
  if s = applyConfiguration then (SequenceApplyConfiguration, none)
  else if s = boot then (SequenceBoot, none)
  else if s = bootstrap then (SequenceBootstrap, none)
  else if s = initializeStr then (SequenceInitialize, none)
  else if s = install then (SequenceInstall, none)
  else if s = shutdown then (SequenceShutdown, none)
  else if s = upgrade then (SequenceUpgrade, none)
  else if s = resetStr then (SequenceReset, none)
  else if s = reboot then (SequenceReboot, none)
  else if s = recoverStr then (SequenceRecover, none)
  else if s = noop then (SequenceNoop, none)
  else (0, some (SeqError.unknownRuntimeSequence s))

/-- The eleven named enumeration constants, in declaration order. -/
def sequenceConstants : List Int :=
  [SequenceApplyConfiguration, SequenceBoot, SequenceBootstrap,
   SequenceInitialize, SequenceInstall, SequenceShutdown, SequenceUpgrade,
   SequenceReset, SequenceReboot, SequenceRecover, SequenceNoop]

/-- A string is all-lowercase when none of its characters is an uppercase
letter (the identifiers in the table contain only letters). -/
def isAllLowercase (s : String) : Bool :=
  s.data.all (fun c => !(c.isUpper))

/-- Go: the `Sequencer` interface (sequencer.go lines 96-107).  The
collaborator types `Runtime`, `Phase` and the request payloads are
declared outside this module, so the embedding is parametric in them.
Every method returns a plain `[]Phase` — the Go signatures carry no
`error` result — so each field is a total function into `List P`.  The
request parameters are Go pointers (`*machine.XxxRequest`), which may be
nil, hence `Option`. -/
structure Sequencer (R P A Rc Rs U : Type) where
  ApplyConfiguration : R → Option A → List P
  Boot : R → List P
  Bootstrap : R → List P
  Initialize : R → List P
  Install : R → List P
  Reboot : R → List P
  Recover : R → Option Rc → List P
  Reset : R → Option Rs → List P
  Shutdown : R → List P
  Upgrade : R → Option U → List P

/-- The ten planning methods of the `Sequencer` interface, by name. -/
inductive SequencerMethod where
  | ApplyConfiguration
  | Boot
  | Bootstrap
  | Initialize
  | Install
  | Reboot
  | Recover
  | Reset
  | Shutdown
  | Upgrade
deriving DecidableEq

/-- Dispatch one planning call on a `Sequencer`, supplying the runtime and
the (possibly nil) request payloads the chosen method needs. -/
def invokeSequencer {R P A Rc Rs U : Type} (q : Sequencer R P A Rc Rs U)
    (rt : R) (ac : Option A) (rc : Option Rc) (rs : Option Rs)
    (up : Option U) : SequencerMethod → List P
  | SequencerMethod.ApplyConfiguration => q.ApplyConfiguration rt ac
  | SequencerMethod.Boot => q.Boot rt
  | SequencerMethod.Bootstrap => q.Bootstrap rt
  | SequencerMethod.Initialize => q.Initialize rt
  | SequencerMethod.Install => q.Install rt
  | SequencerMethod.Reboot => q.Reboot rt
  | SequencerMethod.Recover => q.Recover rt rc
  | SequencerMethod.Reset => q.Reset rt rs
  | SequencerMethod.Shutdown => q.Shutdown rt
  | SequencerMethod.Upgrade => q.Upgrade rt up

/-- A concrete `Sequencer` instance (all methods plan no phases), used to
instantiate the totality theorem at a closed input. -/
def noopSequencer : Sequencer Unit Unit Unit Unit Unit Unit :=
  { ApplyConfiguration := fun _ _ => []
    Boot := fun _ => []
    Bootstrap := fun _ => []
    Initialize := fun _ => []
    Install := fun _ => []
    Reboot := fun _ => []
    Recover := fun _ _ => []
    Reset := fun _ _ => []
    Shutdown := fun _ => []
    Upgrade := fun _ _ => [] }

/-- Model of the Go `error` values flowing through the image pull/import
code (`internal/pkg/containers/image`), covering exactly the
distinctions that code makes:
- `notFound`: an error satisfying `errors.Is(err, errdefs.ErrNotFound)`
  (containerd's not-found class) before any wrapping;
- `pathNotExist`: an error recognized by `os.IsNotExist` — a
  `*PathError`/`*LinkError`/`*SyscallError` carrying `ErrNotExist`;
- `other`: any other leaf error, with its message;
- `wrapf`: `fmt.Errorf(msg + ": %w", err)` wrapping, which `errors.Is`
  unwraps;
- `expectedWrap`/`unexpectedWrap`: the non-nil results of go-retry's
  `retry.ExpectedError`/`retry.UnexpectedError` marker types, which
  expose no `Unwrap` method. -/
inductive GoError where
  | notFound : GoError
  | pathNotExist : GoError
  | other : String → GoError
  | wrapf : String → GoError → GoError
  | expectedWrap : GoError → GoError
  | unexpectedWrap : GoError → GoError
deriving DecidableEq

/-- containerd's `errdefs.IsNotFound(err)`, i.e.
`errors.Is(err, errdefs.ErrNotFound)`: it sees through `fmt.Errorf`
`%w` wrapping, but not through the go-retry marker types (they expose no
`Unwrap`), and holds for no other error class. -/
def errdefsIsNotFound : GoError → Bool
  | GoError.notFound => true
  | GoError.wrapf _ e => errdefsIsNotFound e
  | _ => false

/-- Go stdlib `os.IsNotExist(err)`: the legacy predicate that predates
`errors.Is`; it inspects only `*PathError`/`*LinkError`/`*SyscallError`
values directly (modelled by `pathNotExist`) and unwraps neither
`fmt.Errorf %w` wrappers nor the go-retry marker types. -/
def osIsNotExist : GoError → Bool
  | GoError.pathNotExist => true
  | _ => false

/-- go-retry's `retry.ExpectedError`: nil stays nil, any other error is
wrapped in the expected-error marker type. -/
def retryExpectedError : Option GoError → Option GoError
  | none => none
  | some e => some (GoError.expectedWrap e)

/-- go-retry's `retry.UnexpectedError`: nil stays nil, any other error is
wrapped in the unexpected-error marker type. -/
def retryUnexpectedError : Option GoError → Option GoError
  | none => none
  | some e => some (GoError.unexpectedWrap e)

/-- `fmt` `%q` of a reference string without escape-worthy characters. -/
def goQuote (s : String) : String := "\"" ++ s ++ "\""

/-- The message of the wrapping in `Pull`:
`fmt.Errorf("failed to pull image %q: %w", ref, err)`. -/
def pullWrapMsg (ref : String) : String :=
  "failed to pull image " ++ goQuote ref

/-- The retried closure body of `image.Pull` (part_000 lines 40-52): the
underlying `client.Pull` result is a nil-able error; on error it is
wrapped with `fmt.Errorf("failed to pull image %q: %w", ...)`, then
classified — a not-found error is returned as unexpected, every other
error as expected; on success the closure returns nil. -/
def pullAttempt (ref : String) (pullErr : Option GoError) : Option GoError :=
  match pullErr with
  | none => none
  | some e =>
    let w := GoError.wrapf (pullWrapMsg ref) e
    if errdefsIsNotFound w then retryUnexpectedError (some w)
    else retryExpectedError (some w)

/-- The retried closure body of `image.Import` (part_000 lines 65-78),
embedded exactly as written: the `importer.Import` result is wrapped with
`retry.ExpectedError` FIRST (`err := retry.ExpectedError(importer.Import(...))`),
and only then tested with `err != nil && os.IsNotExist(err)`; the
not-exist branch returns `retry.UnexpectedError(err)`, the fall-through
returns `retry.ExpectedError(err)` (a second wrap). -/
def importAttempt (importErr : Option GoError) : Option GoError :=
  match retryExpectedError importErr with
  | some e =>
    if osIsNotExist e then retryUnexpectedError (some e)
    else retryExpectedError (some e)
  | none => retryExpectedError none

/-- Outcome of one run of go-retry's retry loop over a finite trace of
underlying per-attempt results (the trace length stands for the time
budget of the bounded policy). -/
inductive RunResult where
  | succeeded : Nat → RunResult
  | stoppedUnexpected : Nat → GoError → RunResult
  | exhausted : Nat → RunResult
deriving DecidableEq

/-- go-retry's `retryer.Retry(f)` loop: call the closure on the next
underlying result; a nil return ends the loop successfully; an error
marked expected is retried (with backoff) against the rest of the trace;
any other error ends the loop at once with that error.  The `Nat`
argument counts the attempts already made. -/
def retryRun {A : Type} (attempt : A → Option GoError) :
    List A → Nat → RunResult
  | [], n => RunResult.exhausted n
  | r :: rest, n =>
    match attempt r with
    | none => RunResult.succeeded (n + 1)
    | some (GoError.expectedWrap _) => retryRun attempt rest (n + 1)
    | some e => RunResult.stoppedUnexpected (n + 1) e

/-- Go `time.Second` in nanoseconds. -/
def timeSecond : Nat := 1000000000

/-- Go `time.Minute` in nanoseconds. -/
def timeMinute : Nat := 60 * timeSecond

/-- Go constant `PullTimeout = 20 * time.Minute` (part_000 line 24). -/
def PullTimeout : Nat := 20 * timeMinute

/-- Go constant `PullRetryInterval = 5 * time.Second` (line 25). -/
def PullRetryInterval : Nat := 5 * timeSecond

/-- Go constant `ImportTimeout = 5 * time.Minute` (line 30). -/
def ImportTimeout : Nat := 5 * timeMinute

/-- Go constant `ImportRetryInterval = 5 * time.Second` (line 31). -/
def ImportRetryInterval : Nat := 5 * timeSecond

/-- Go constant `ImportRetryJitter = time.Second` (line 32). -/
def ImportRetryJitter : Nat := timeSecond

/-- go-retry's functional options, as passed at the two call sites. -/
inductive RetryOption where
  | withUnits : Nat → RetryOption
  | withJitter : Nat → RetryOption
  | withErrorLogging : Bool → RetryOption
deriving DecidableEq

/-- The option record of a go-retry retryer. -/
structure RetryOptions where
  units : Nat
  jitter : Nat
  errorLogging : Bool
deriving DecidableEq

/-- go-retry defaults: one-second units, zero jitter, no logging; an
option left unset at a call site keeps its default. -/
def defaultRetryOptions : RetryOptions :=
  { units := timeSecond, jitter := 0, errorLogging := false }

/-- Fold one functional option into the option record. -/
def applyRetryOption (o : RetryOptions) : RetryOption → RetryOptions
  | RetryOption.withUnits d => { o with units := d }
  | RetryOption.withJitter d => { o with jitter := d }
  | RetryOption.withErrorLogging b => { o with errorLogging := b }

/-- The backoff flavour chosen by the go-retry constructor used. -/
inductive BackoffKind where
  | exponential
  | linear
deriving DecidableEq

/-- A configured go-retry retryer: backoff flavour, total timeout, and
the folded options. -/
structure Retryer where
  kind : BackoffKind
  timeout : Nat
  options : RetryOptions
deriving DecidableEq

/-- go-retry's `retry.Exponential(timeout, opts...)` constructor. -/
def retryExponential (timeout : Nat) (opts : List RetryOption) : Retryer :=
  { kind := BackoffKind.exponential
    timeout := timeout
    options := opts.foldl applyRetryOption defaultRetryOptions }

/-- The retryer built by `image.Pull` (part_000 line 40):
`retry.Exponential(PullTimeout, retry.WithUnits(PullRetryInterval),
retry.WithErrorLogging(true))`. -/
def pullRetryer : Retryer :=
  retryExponential PullTimeout
    [RetryOption.withUnits PullRetryInterval,
     RetryOption.withErrorLogging true]

/-- The retryer built by `image.Import` (part_000 line 65):
`retry.Exponential(ImportTimeout, retry.WithUnits(ImportRetryInterval),
retry.WithJitter(ImportRetryJitter), retry.WithErrorLogging(true))`. -/
def importRetryer : Retryer :=
  retryExponential ImportTimeout
    [RetryOption.withUnits ImportRetryInterval,
     RetryOption.withJitter ImportRetryJitter,
     RetryOption.withErrorLogging true]

end Talos

namespace Talos

/-- Helper: a positional lookup in a list yields a value exactly when the
index is below the list's length. -/
theorem get?_isSome_iff {α : Type} (l : List α) (n : Nat) :
    (l.get? n).isSome = true ↔ n < l.length := by
  induction l generalizing n with
  | nil => simp [List.get?]
  | cons a t ih =>
    cases n with
    | zero => simp [List.get?]
    | succ m => simpa [List.get?, Nat.succ_lt_succ_iff] using ih m

/-- Helper: on any string outside the fixed table, every branch of the
switch in `ParseSequence` falls through to the default. -/
theorem parseSequence_of_not_mem (s : String) (h : s ∉ sequenceStrings) :
    ParseSequence s = (0, some (SeqError.unknownRuntimeSequence s)) := by
  simp only [sequenceStrings, List.mem_cons, List.not_mem_nil, or_false,
    not_or] at h
  obtain ⟨h1, h2, h3, h4, h5, h6, h7, h8, h9, h10, h11⟩ := h
  simp [ParseSequence, h1, h2, h3, h4, h5, h6, h7, h8, h9, h10, h11]

/-- C1: for every Sequence value in the closed enumeration (0 through 10),
`ParseSequence` applied to its `String()` form returns exactly that value
with a nil error (round-trip law). -/
theorem parseSequence_string_roundtrip (s : Int) (h0 : 0 ≤ s)
    (h1 : s ≤ 10) :
    ∃ str, Sequence.String s = some str ∧ ParseSequence str = (s, none) := by
  interval_cases s <;> exact ⟨_, rfl, by decide⟩

/-- Witness for C1 at the concrete value `SequenceBoot`. -/
theorem parseSequence_string_roundtrip_witness :
    ∃ str, Sequence.String SequenceBoot = some str ∧
      ParseSequence str = (SequenceBoot, none) :=
  parseSequence_string_roundtrip SequenceBoot (by decide) (by decide)

/-- C2: for every string outside the eleven fixed canonical identifiers,
`ParseSequence` returns a non-nil "unknown runtime sequence" error — no
case-insensitive matching, trimming, or alias resolution. -/
theorem parseSequence_unknown_is_error (s : String)
    (h : s ∉ sequenceStrings) :
    ParseSequence s = (0, some (SeqError.unknownRuntimeSequence s)) :=
  parseSequence_of_not_mem s h

/-- Witness for C2 at "Boot" (case), " boot" (whitespace) and
"frobnicate" (alias-free). -/
theorem parseSequence_unknown_is_error_witness :
    ParseSequence "Boot" = (0, some (SeqError.unknownRuntimeSequence "Boot")) ∧
    ParseSequence " boot" =
      (0, some (SeqError.unknownRuntimeSequence " boot")) ∧
    ParseSequence "frobnicate" =
      (0, some (SeqError.unknownRuntimeSequence "frobnicate")) :=
  ⟨parseSequence_unknown_is_error "Boot" (by decide),
   parseSequence_unknown_is_error " boot" (by decide),
   parseSequence_unknown_is_error "frobnicate" (by decide)⟩

/-- C3 counterexample: the string form of `SequenceApplyConfiguration` is
the camelCase identifier "applyConfiguration", which is not all-lowercase
(it contains an uppercase 'C'). -/
theorem sequenceString_zero_not_lowercase :
    Sequence.String SequenceApplyConfiguration = some applyConfiguration ∧
    isAllLowercase applyConfiguration = false := by
  constructor
  · rfl
  · decide

/-- C3 amended: for every Sequence value in the closed enumeration,
`String()` returns the identifier at the enum value's position in the
fixed table of eleven; every identifier except `applyConfiguration`
(position 0) is all-lowercase, while `applyConfiguration` is camelCase. -/
theorem sequenceString_positional_table (s : Int) (h0 : 0 ≤ s)
    (h1 : s ≤ 10) :
    ∃ str, Sequence.String s = some str ∧
      sequenceStrings.get? s.toNat = some str ∧
      (isAllLowercase str = true ↔ s ≠ SequenceApplyConfiguration) := by
  interval_cases s <;> exact ⟨_, rfl, rfl, by decide⟩

/-- Witness for the amended C3 at `SequenceBoot`. -/
theorem sequenceString_positional_table_witness :
    ∃ str, Sequence.String SequenceBoot = some str ∧
      sequenceStrings.get? (SequenceBoot).toNat = some str ∧
      (isAllLowercase str = true ↔ SequenceBoot ≠ SequenceApplyConfiguration) :=
  sequenceString_positional_table SequenceBoot (by decide) (by decide)

/-- C4 counterexample: on the non-member string "frobnicate",
`ParseSequence` does return an error together with the zero Sequence
value, but that zero value coincides with `SequenceApplyConfiguration`,
which is a valid member of the closed enumeration (it lies in 0..10). -/
theorem parseSequence_failure_value_is_member :
    (ParseSequence "frobnicate").2.isSome = true ∧
    (ParseSequence "frobnicate").1 = SequenceApplyConfiguration ∧
    0 ≤ (ParseSequence "frobnicate").1 ∧
    (ParseSequence "frobnicate").1 ≤ 10 := by decide

/-- C4 amended: for any string not in the fixed set of eleven,
`ParseSequence` returns an error together with the zero Sequence value;
that zero value numerically coincides with `SequenceApplyConfiguration`
(a valid member of the enumeration), so failure is signalled solely by
the non-nil error, not by the returned value. -/
theorem parseSequence_failure_zero_value (s : String)
    (h : s ∉ sequenceStrings) :
    (ParseSequence s).2.isSome = true ∧
    (ParseSequence s).1 = SequenceApplyConfiguration ∧
    0 ≤ (ParseSequence s).1 ∧ (ParseSequence s).1 ≤ 10 := by
  rw [parseSequence_of_not_mem s h]
  exact ⟨rfl, rfl, show (0:Int) ≤ 0 by decide, show (0:Int) ≤ 10 by decide⟩

/-- Witness for the amended C4 at "frobnicate". -/
theorem parseSequence_failure_zero_value_witness :
    (ParseSequence "frobnicate").2.isSome = true ∧
    (ParseSequence "frobnicate").1 = SequenceApplyConfiguration ∧
    0 ≤ (ParseSequence "frobnicate").1 ∧
    (ParseSequence "frobnicate").1 ≤ 10 :=
  parseSequence_failure_zero_value "frobnicate" (by decide)

/-- C9: every Sequence obtainable through normal construction — the value
returned on `ParseSequence`'s success path (nil error), or any of the
eleven named enumeration constants — lies within 0..10. -/
theorem sequence_normal_construction_in_range :
    (∀ s, (ParseSequence s).2 = none →
      0 ≤ (ParseSequence s).1 ∧ (ParseSequence s).1 ≤ 10) ∧
    (∀ q, q ∈ sequenceConstants → 0 ≤ q ∧ q ≤ 10) := by
  constructor
  · intro s h
    by_cases hm : s ∈ sequenceStrings
    · simp only [sequenceStrings, List.mem_cons, List.not_mem_nil,
        or_false] at hm
      rcases hm with h1 | h1 | h1 | h1 | h1 | h1 | h1 | h1 | h1 | h1 | h1 <;>
        subst h1 <;> decide
    · rw [parseSequence_of_not_mem s hm] at h
      simp at h
  · intro q hq
    simp only [sequenceConstants, List.mem_cons, List.not_mem_nil,
      or_false] at hq
    rcases hq with h1 | h1 | h1 | h1 | h1 | h1 | h1 | h1 | h1 | h1 | h1 <;>
      subst h1 <;> decide

/-- Witness for C9 at the string "boot" and the constant `SequenceBoot`. -/
theorem sequence_normal_construction_in_range_witness :
    (0 ≤ (ParseSequence "boot").1 ∧ (ParseSequence "boot").1 ≤ 10) ∧
    (0 ≤ SequenceBoot ∧ SequenceBoot ≤ 10) :=
  ⟨sequence_normal_construction_in_range.1 "boot" (by decide),
   sequence_normal_construction_in_range.2 SequenceBoot (by decide)⟩

/-- C10: the positional index in `Sequence.String` is in bounds (no panic,
`some` result) precisely when the underlying integer is between 0 and 10
inclusive; outside that range the lookup is an index-out-of-range panic
(`none`), never a fallback string. -/
theorem sequenceString_safe_iff_in_range (s : Int) :
    (Sequence.String s).isSome = true ↔ (0 ≤ s ∧ s ≤ 10) := by
  unfold Sequence.String
  by_cases h : s < 0
  · simp only [if_pos h, Option.isSome_none]
    constructor
    · intro hc; cases hc
    · intro hc; exfalso; omega
  · simp only [if_neg h]
    have hlen : sequenceStrings.length = 11 := rfl
    rw [get?_isSome_iff, hlen]
    omega

/-- Witness for C10 at the out-of-range value 11 and in-range value 10. -/
theorem sequenceString_safe_iff_in_range_witness :
    ((Sequence.String 11).isSome = true ↔ ((0:Int) ≤ 11 ∧ (11:Int) ≤ 10)) ∧
    ((Sequence.String 10).isSome = true ↔ ((0:Int) ≤ 10 ∧ (10:Int) ≤ 10)) :=
  ⟨sequenceString_safe_iff_in_range 11, sequenceString_safe_iff_in_range 10⟩

/-- C5: every `Sequencer` planning method is total — the Go interface
gives each method a plain `[]Phase` result and no error result, so in
the embedding each method is a total function: dispatching any of the
ten methods on any sequencer, runtime, and request payloads always
yields a phase list (possibly empty), never a failure. -/
theorem sequencer_methods_total {R P A Rc Rs U : Type}
    (q : Sequencer R P A Rc Rs U) (rt : R) (ac : Option A) (rc : Option Rc)
    (rs : Option Rs) (up : Option U) (m : SequencerMethod) :
    ∃ phases : List P, invokeSequencer q rt ac rc rs up m = phases :=
  ⟨invokeSequencer q rt ac rc rs up m, rfl⟩

/-- Witness for C5: the totality theorem instantiated at a concrete
sequencer, runtime and method. -/
theorem sequencer_methods_total_witness :
    ∃ phases : List Unit,
      invokeSequencer noopSequencer () none none none none
        SequencerMethod.Boot = phases :=
  sequencer_methods_total noopSequencer () none none none none
    SequencerMethod.Boot

/-- C6: in `image.Pull`, a failed attempt whose error is a not-found
error is classified as unexpected, terminating the retry loop at that
attempt; every other pull error is classified as expected, and the loop
goes on retrying against the remaining budget. -/
theorem pull_error_classification (ref : String) (e : GoError)
    (rest : List (Option GoError)) (n : Nat) :
    (errdefsIsNotFound e = true →
      retryRun (pullAttempt ref) (some e :: rest) n
        = RunResult.stoppedUnexpected (n + 1)
            (GoError.unexpectedWrap (GoError.wrapf (pullWrapMsg ref) e))) ∧
    (errdefsIsNotFound e = false →
      retryRun (pullAttempt ref) (some e :: rest) n
        = retryRun (pullAttempt ref) rest (n + 1)) := by
  constructor
  · intro h
    simp [retryRun, pullAttempt, errdefsIsNotFound, h, retryUnexpectedError]
  · intro h
    simp [retryRun, pullAttempt, errdefsIsNotFound, h, retryExpectedError]

/-- Witness for C6: a not-found pull error stops the loop on attempt one;
an ordinary pull error is retried and a subsequent success ends the
loop. -/
theorem pull_error_classification_witness :
    retryRun (pullAttempt "docker.io/img") [some GoError.notFound] 0
      = RunResult.stoppedUnexpected 1
          (GoError.unexpectedWrap
            (GoError.wrapf (pullWrapMsg "docker.io/img") GoError.notFound)) ∧
    retryRun (pullAttempt "docker.io/img")
        [some (GoError.other "i/o timeout"), none] 0
      = RunResult.succeeded 2 := by
  constructor
  · exact (pull_error_classification "docker.io/img" GoError.notFound
      [] 0).1 rfl
  · have h := (pull_error_classification "docker.io/img"
      (GoError.other "i/o timeout") [none] 0).2 rfl
    rw [h]
    rfl

/-- C7 (code-bug evidence): in `image.Import`, an import error that
`os.IsNotExist` recognizes on the raw error is nevertheless classified
as expected, because the code wraps the error with `retry.ExpectedError`
before testing `os.IsNotExist`, and the marker wrapper defeats the test;
consequently the retry loop keeps retrying it instead of stopping.  The
closure's return value shows the double expected wrap of the
fall-through branch. -/
theorem import_notExist_retried :
    osIsNotExist GoError.pathNotExist = true ∧
    importAttempt (some GoError.pathNotExist)
      = some (GoError.expectedWrap (GoError.expectedWrap
          GoError.pathNotExist)) ∧
    (∀ rest n, retryRun importAttempt
        (some GoError.pathNotExist :: rest) n
      = retryRun importAttempt rest (n + 1)) ∧
    (∀ e, importAttempt (some e)
      = some (GoError.expectedWrap (GoError.expectedWrap e))) := by
  refine ⟨rfl, rfl, fun rest n => rfl, fun e => rfl⟩

/-- C8 counterexample: the retryer built by `image.Pull` carries no
jitter option — its jitter stays at the zero default, so the Pull retry
policy is not jittered. -/
theorem pullRetryer_not_jittered : pullRetryer.options.jitter = 0 := rfl

/-- C8 amended: both leaf image operations run under an exponential
backoff policy bounded by a total timeout — 20 minutes for Pull and
5 minutes for Import, with a 5-second retry unit each; Import's policy
is jittered (1 second), while Pull's carries no jitter. -/
theorem retryers_configuration :
    pullRetryer.kind = BackoffKind.exponential ∧
    pullRetryer.timeout = 20 * timeMinute ∧
    pullRetryer.options.units = 5 * timeSecond ∧
    pullRetryer.options.jitter = 0 ∧
    importRetryer.kind = BackoffKind.exponential ∧
    importRetryer.timeout = 5 * timeMinute ∧
    importRetryer.options.units = 5 * timeSecond ∧
    importRetryer.options.jitter = timeSecond :=
  ⟨rfl, rfl, rfl, rfl, rfl, rfl, rfl, rfl⟩

end Talos
